import Mathlib

/-!
Shallow embedding of the pdepy finite-difference solvers (src/pde/*.py)
over the rationals.

Conventions of the embedding:
* a numpy 2-D array `u` of shape (xn+1)*(yn+1) is a total function
  `ℕ → ℕ → ℚ`; code only ever reads and writes in-bounds indices, so the
  values outside the grid are irrelevant to every statement below;
* `np.empty` produces unspecified contents, modelled by an arbitrary
  "garbage" grid `g` passed explicitly;
* condition vectors (scalar-or-array in Python, broadcast by numpy) are
  functions `ℕ → ℚ` from the index along the written row/column;
* `scipy.linalg.solve` is external library code, modelled by an
  arbitrary function `lin : (ℕ → ℕ → ℚ) → (ℕ → ℚ) → (ℕ → ℚ)` taking the
  assembled matrix and right-hand side; every theorem quantifies over it;
* `sys.exit(msg)` is `Except.error msg` (without the quote characters of
  the Python message, which carry no information).
-/

/-- A 2-D numpy array, as a total function on indices. -/
def Grid : Type := ℕ → ℕ → ℚ

/-- A stand-in for `scipy.linalg.solve`: matrix and RHS to solution vector. -/
def LinSolve : Type := (ℕ → ℕ → ℚ) → (ℕ → ℚ) → (ℕ → ℚ)

/-- pde/base.py `check_method`: `sys.exit` on an invalid method string. -/
def check_method (method : String) (methods : List String) : Except String Unit :=
  if method ∈ methods then Except.ok ()
  else Except.error ("Value " ++ method ++ " for argument method is not valid.")

/-- Model of `np.linspace(0, stop, num)` for an integer sample count: raises
(`Except.error`) when `num < 0`, returns the single sample 0 when
`num = 1`, and otherwise the `num` evenly spaced samples from 0 to
`stop` inclusive. -/
def linspace (stop : ℚ) (num : ℤ) : Except String (List ℚ) :=
  if num < 0 then Except.error ("Number of samples must be non-negative")
  else Except.ok ((List.range num.toNat).map
    (fun i => if num = 1 then 0 else stop * i / ((num : ℚ) - 1)))

/-- pde/base.py `set_axis`: the two axis vectors
`np.linspace(0, xf, xn+1)`, `np.linspace(0, yf, yn+1)`. -/
def set_axis (xn : ℤ) (xf : ℚ) (yn : ℤ) (yf : ℚ) :
    Except String (List ℚ × List ℚ) := do
  let x ← linspace xf (xn + 1)
  let y ← linspace yf (yn + 1)
  return (x, y)

/-- pde/time.py `set_u`: start from the uninitialised array `g`, then
write `u[:,0] = init`, `u[0,:] = bound_x0`, `u[-1,:] = bound_xf`, in
that order (so the later writes win at overlapping cells). -/
def time.set_u (g : Grid) (xn yn : ℕ) (init bound_x0 bound_xf : ℕ → ℚ) : Grid :=
  fun x y =>
    if x = xn then bound_xf y
    else if x = 0 then bound_x0 y
    else if y = 0 then init x
    else g x y

/-- pde/steady.py `set_u`: start from the uninitialised array `g`, then
write `u[0,:] = bound_x0`, `u[-1,:] = bound_xf`, `u[:,0] = bound_y0`,
`u[:,-1] = bound_yf`, in that order. -/
def steady.set_u (g : Grid) (xn yn : ℕ)
    (bound_x0 bound_xf bound_y0 bound_yf : ℕ → ℚ) : Grid :=
  fun x y =>
    if y = yn then bound_yf x
    else if y = 0 then bound_y0 x
    else if x = xn then bound_xf y
    else if x = 0 then bound_x0 y
    else g x y

/-- One iteration of a time-marching loop: the vectorised statement
`u[1:-1, j+1] = <expression reading u>`, where `f u j x` is the value the
expression takes at interior space node `x`. -/
def colStep (xn : ℕ) (f : Grid → ℕ → ℕ → ℚ) (u : Grid) (j : ℕ) : Grid :=
  fun x y => if 1 ≤ x ∧ x ≤ xn - 1 ∧ y = j + 1 then f u j x else u x y

/-- A `for j in np.arange(a, a+m)` loop of `colStep` updates. -/
def colLoop (xn : ℕ) (f : Grid → ℕ → ℕ → ℚ) (a m : ℕ) (u : Grid) : Grid :=
  (List.range' a m).foldl (colStep xn f) u

theorem colStep_apply (xn : ℕ) (f : Grid → ℕ → ℕ → ℚ) (u : Grid) (j x y : ℕ) :
    colStep xn f u j x y
      = if 1 ≤ x ∧ x ≤ xn - 1 ∧ y = j + 1 then f u j x else u x y := rfl

theorem colLoop_succ (xn : ℕ) (f : Grid → ℕ → ℕ → ℚ) (a m : ℕ) (u : Grid) :
    colLoop xn f a (m + 1) u = colLoop xn f (a + 1) m (colStep xn f u a) := rfl

/-- Cells outside the written block (boundary rows, or columns at or
before `a`, or columns after `a+m`) are untouched by the loop. -/
theorem colLoop_out (xn : ℕ) (f : Grid → ℕ → ℕ → ℚ) :
    ∀ (m a : ℕ) (u : Grid) (x y : ℕ),
      (¬(1 ≤ x ∧ x ≤ xn - 1) ∨ y ≤ a ∨ a + m < y) →
      colLoop xn f a m u x y = u x y := by
  intro m
  induction m with
  | zero => intro a u x y _; rfl
  | succ n ih =>
    intro a u x y h
    rw [colLoop_succ, ih (a + 1) _ x y (by omega), colStep_apply]
    rw [if_neg (by omega)]

/-- If each step reads only columns at or before its own level, plus the
never-written boundary rows, then every written cell of the final grid
satisfies the step recurrence stated on the final grid itself. -/
theorem colLoop_rec (xn : ℕ) (f : Grid → ℕ → ℕ → ℚ) :
    ∀ (m a : ℕ) (u : Grid) (j x : ℕ),
      (∀ (w v : Grid) (j' x' : ℕ), a ≤ j' →
        (∀ x'' y'', y'' ≤ j' ∨ x'' = 0 ∨ xn ≤ x'' → w x'' y'' = v x'' y'') →
        f w j' x' = f v j' x') →
      a ≤ j → j < a + m → 1 ≤ x → x ≤ xn - 1 →
      colLoop xn f a m u x (j + 1) = f (colLoop xn f a m u) j x := by
  intro m
  induction m with
  | zero => intro a u j x _ h1 h2 _ _; omega
  | succ n ih =>
    intro a u j x hf haj hjm hx1 hx2
    rw [colLoop_succ]
    rcases Nat.eq_or_lt_of_le haj with hja | hja
    · subst hja
      have hout : ∀ x' y', y' ≤ a ∨ x' = 0 ∨ xn ≤ x' →
          colLoop xn f (a + 1) n (colStep xn f u a) x' y' = u x' y' := by
        intro x' y' hy
        rw [colLoop_out xn f n (a + 1) _ x' y' (by omega), colStep_apply,
          if_neg (by omega)]
      rw [colLoop_out xn f n (a + 1) _ x (a + 1) (by omega), colStep_apply,
        if_pos ⟨hx1, hx2, rfl⟩]
      exact hf u _ a x le_rfl (fun x' y' hy => (hout x' y' hy).symm)
    · exact ih (a + 1) _ j x
        (fun w v j' x' h1 h2 => hf w v j' x' (by omega) h2) hja (by omega) hx1 hx2

/-! ## pde/wave.py -/

/-- pde/wave.py `_cal_constants`: `h = xf/xn`, `k = yf/yn`,
`𝛼 = k²/h²`; returns `(𝛼, h, k)`. -/
def wave.cal_constants (xn : ℕ) (xf : ℚ) (yn : ℕ) (yf : ℚ) : ℚ × ℚ × ℚ :=
  let h := xf / xn
  let k := yf / yn
  (k ^ 2 / h ^ 2, h, k)

/-- pde/wave.py `_set_first_row`:
`u[1:-1, 1] = (u[:,0] + k*d_init)[1:-1] + k²/2 * (u[2:,0] - 2u[1:-1,0] + u[:-2,0]) / h²`. -/
def wave.set_first_row (xn : ℕ) (h k : ℚ) (d_init : ℕ → ℚ) (u : Grid) : Grid :=
  fun x y =>
    if 1 ≤ x ∧ x ≤ xn - 1 ∧ y = 1 then
      (u x 0 + k * d_init x) + k ^ 2 / 2 * (u (x + 1) 0 - 2 * u x 0 + u (x - 1) 0) / h ^ 2
    else u x y

/-- The value assigned by one iteration of pde/wave.py `_explicit` at
interior node `x`:
`u[1:-1, j+1] = 2u[1:-1,j] - u[1:-1,j-1] + 𝛼(u[2:,j] - 2u[1:-1,j] + u[:-2,j])`. -/
def wave.explicitStep (alpha : ℚ) (u : Grid) (j x : ℕ) : ℚ :=
  2 * u x j - u x (j - 1) + alpha * (u (x + 1) j - 2 * u x j + u (x - 1) j)

/-- pde/wave.py `_explicit`: the loop `for j in np.arange(1, u.shape[1]-1)`. -/
def wave.explicit (xn yn : ℕ) (alpha : ℚ) (u : Grid) : Grid :=
  colLoop xn (wave.explicitStep alpha) 1 (yn - 1) u

/-- pde/wave.py `_set_mat`: main diagonal `-2(1+𝛼)`, unit off-diagonals
(as a total index function; only entries with both indices below `n`
belong to the matrix). -/
def wave.set_mat (n : ℕ) (alpha : ℚ) : ℕ → ℕ → ℚ :=
  fun i i' =>
    (if i' = i then -2 * (1 + alpha) else 0)
    + (if i' = i + 1 then 1 else 0)
    + (if i = i' + 1 then 1 else 0)

/-- pde/wave.py `_set_vec` applied to the window `u[:, j-1:j+2]`
(column 0 of `w` is time level `j-1`, column 1 is `j`, column 2 is `j+1`):
`vec = -u[:-2,0] - u[2:,0] + 2(1+𝛼)u[1:-1,0] - 4𝛼u[1:-1,1]`, then
`vec[0] -= u[0,2]` and `vec[-1] -= u[-1,2]`. -/
def wave.set_vec (alpha : ℚ) (xn : ℕ) (w : Grid) : ℕ → ℚ :=
  fun i =>
    (- w i 0 - w (i + 2) 0 + 2 * (1 + alpha) * w (i + 1) 0 - 4 * alpha * w (i + 1) 1)
    - (if i = 0 then w 0 2 else 0)
    - (if i = xn - 2 then w xn 2 else 0)

/-- The value assigned by one iteration of pde/wave.py `_implicit` at
interior node `x`: component `x-1` of `linalg.solve(mat, vec)`. -/
def wave.implicitStep (lin : LinSolve) (xn : ℕ) (alpha : ℚ) (u : Grid) (j x : ℕ) : ℚ :=
  lin (wave.set_mat (xn - 1) alpha)
    (wave.set_vec alpha xn (fun r c => u r (j - 1 + c))) (x - 1)

/-- pde/wave.py `_implicit`: the loop `for j in np.arange(1, u.shape[1]-1)`,
solving `mat = _set_mat(xn-1, 𝛼)` against `_set_vec(𝛼, u[:, j-1:j+2])`. -/
def wave.implicit (lin : LinSolve) (xn yn : ℕ) (alpha : ℚ) (u : Grid) : Grid :=
  colLoop xn (wave.implicitStep lin xn alpha) 1 (yn - 1) u

/-- pde/wave.py `solve`: validate the method, initialise `u` from the
conditions, bootstrap the first interior row, then run the chosen
stepping mode with the constant `consts[0]**(-1)` (the reciprocal of
`𝛼 = (k/h)²`). -/
def wave.solve (lin : LinSolve) (g : Grid) (xn : ℕ) (xf : ℚ) (yn : ℕ) (yf : ℚ)
    (d_init init bound_x0 bound_xf : ℕ → ℚ) (method : String) : Except String Grid :=
  match check_method method ["e", "i"] with
  | Except.error e => Except.error e
  | Except.ok _ =>
    let u := time.set_u g xn yn init bound_x0 bound_xf
    let consts := wave.cal_constants xn xf yn yf
    let u1 := wave.set_first_row xn consts.2.1 consts.2.2 d_init u
    if method = "e" then Except.ok (wave.explicit xn yn consts.1⁻¹ u1)
    else Except.ok (wave.implicit lin xn yn consts.1⁻¹ u1)

/-! ## pde/parabolic.py -/

/-- pde/parabolic.py `_cal_constants`: `h = xf/xn`, `k = yf/yn`,
`𝛼 = k/h²`, `β = k/(2h)`; returns `(𝛼, β, k)`. -/
def parabolic.cal_constants (xn : ℕ) (xf : ℚ) (yn : ℕ) (yf : ℚ) : ℚ × ℚ × ℚ :=
  let h := xf / xn
  let k := yf / yn
  (k / h ^ 2, k / (2 * h), k)

/-- pde/parabolic.py `_set_𝛉`: 0 when the method's second character is
`c`, 1 when it is `u` (any other value is rejected by `check_method`
before this is ever used). -/
def parabolic.set_theta (method : String) : ℚ :=
  if method.toList.get? 1 = some 'c' then 0 else 1

/-- The value assigned by one iteration of pde/parabolic.py `_explicit`
at interior node `x` (the parameter arrays index interior nodes from 0,
so node `x` reads `p[x-1, j]` etc.). -/
def parabolic.explicitStep (th alpha beta k : ℚ) (p q r s : ℕ → ℕ → ℚ)
    (u : Grid) (j x : ℕ) : ℚ :=
  (alpha * p (x - 1) j + beta * (th * abs (q (x - 1) j) - q (x - 1) j)) * u (x - 1) j
  + (alpha * p (x - 1) j + beta * (th * abs (q (x - 1) j) + q (x - 1) j)) * u (x + 1) j
  + (1 + k * r (x - 1) j - 2 * (alpha * p (x - 1) j + th * beta * abs (q (x - 1) j))) * u x j
  + k * s (x - 1) j

/-- pde/parabolic.py `_explicit`: the loop `for j in np.arange(u.shape[1]-1)`. -/
def parabolic.explicit (xn yn : ℕ) (th alpha beta k : ℚ) (p q r s : ℕ → ℕ → ℚ)
    (u : Grid) : Grid :=
  colLoop xn (parabolic.explicitStep th alpha beta k p q r s) 0 yn u

/-- pde/parabolic.py `_set_mat` (coefficients are one time level's
columns `p[:,j]`, `q[:,j]`, `r[:,j]`): main diagonal
`-1 + kr - 2(𝛼p + 𝛉β|q|)`, super-diagonal `𝛼p[:-1] + β(𝛉|q[:-1]| + q[:-1])`,
sub-diagonal `𝛼p[1:] + β(𝛉|q[1:]| - q[1:])`. -/
def parabolic.set_mat (th alpha beta k : ℚ) (p q r : ℕ → ℚ) : ℕ → ℕ → ℚ :=
  fun i i' =>
    (if i' = i then -1 + k * r i - 2 * (alpha * p i + th * beta * abs (q i)) else 0)
    + (if i' = i + 1 then alpha * p i + beta * (th * abs (q i) + q i) else 0)
    + (if i = i' + 1 then alpha * p i + beta * (th * abs (q i) - q i) else 0)

/-- pde/parabolic.py `_set_vec` applied to the window `u[:, j:j+2]`
(column 0 of `w` is time level `j`, column 1 is `j+1`):
`vec = -u[1:-1,0] - k*s`, then
`vec[0] -= (𝛼p[0] + β(𝛉|q[0]| - q[0])) * u[0,1]` and
`vec[-1] -= (𝛼p[-1] + β(𝛉|q[-1]| + q[-1])) * u[-1,1]`. -/
def parabolic.set_vec (th alpha beta k : ℚ) (p q s : ℕ → ℚ) (xn : ℕ) (w : Grid) : ℕ → ℚ :=
  fun i =>
    (- w (i + 1) 0 - k * s i)
    - (if i = 0 then (alpha * p 0 + beta * (th * abs (q 0) - q 0)) * w 0 1 else 0)
    - (if i = xn - 2 then
        (alpha * p (xn - 2) + beta * (th * abs (q (xn - 2)) + q (xn - 2))) * w xn 1
      else 0)

/-- The value assigned by one iteration of pde/parabolic.py `_implicit`
at interior node `x`: component `x-1` of `linalg.solve(mat, vec)`, with
the level-`j` coefficient columns. -/
def parabolic.implicitStep (lin : LinSolve) (xn : ℕ) (th alpha beta k : ℚ)
    (p q r s : ℕ → ℕ → ℚ) (u : Grid) (j x : ℕ) : ℚ :=
  lin (parabolic.set_mat th alpha beta k (fun i => p i j) (fun i => q i j) (fun i => r i j))
    (parabolic.set_vec th alpha beta k (fun i => p i j) (fun i => q i j) (fun i => s i j)
      xn (fun r' c => u r' (j + c)))
    (x - 1)

/-- pde/parabolic.py `_implicit`: the loop `for j in np.arange(u.shape[1]-1)`. -/
def parabolic.implicit (lin : LinSolve) (xn yn : ℕ) (th alpha beta k : ℚ)
    (p q r s : ℕ → ℕ → ℚ) (u : Grid) : Grid :=
  colLoop xn (parabolic.implicitStep lin xn th alpha beta k p q r s) 0 yn u

/-- pde/parabolic.py `solve`: validate the method, initialise `u`,
compute the constants and `𝛉`, then dispatch on the method's first
character. -/
def parabolic.solve (lin : LinSolve) (g : Grid) (xn : ℕ) (xf : ℚ) (yn : ℕ) (yf : ℚ)
    (p q r s : ℕ → ℕ → ℚ) (init bound_x0 bound_xf : ℕ → ℚ)
    (method : String) : Except String Grid :=
  match check_method method ["ec", "eu", "ic", "iu"] with
  | Except.error e => Except.error e
  | Except.ok _ =>
    let u := time.set_u g xn yn init bound_x0 bound_xf
    let c := parabolic.cal_constants xn xf yn yf
    let th := parabolic.set_theta method
    if method.toList.get? 0 = some 'e' then
      Except.ok (parabolic.explicit xn yn th c.1 c.2.1 c.2.2 p q r s u)
    else
      Except.ok (parabolic.implicit lin xn yn th c.1 c.2.1 c.2.2 p q r s u)

/-! ## pde/laplace.py -/

/-- pde/laplace.py `_cal_constants`: `𝛼 = (xf/xn)²`, `β = (yf/yn)²`. -/
def laplace.cal_constants (xn : ℕ) (xf : ℚ) (yn : ℕ) (yf : ℚ) : ℚ × ℚ :=
  ((xf / xn) ^ 2, (yf / yn) ^ 2)

/-- pde/laplace.py `_set_mat` over `n = (xn-1)(yn-1)` unknowns:
`diag(main) + diag(sub1, 1) + diag(sub1, -1) + diag(sub2, xn-1) + diag(sub2, -(xn-1))`
with `main = -2(𝛼+β)`, `sub1 = β` except the entries zeroed by the slice
`sub1[xn-2:-1:xn-1] = 0` (index `i` with `(xn-1) ∣ i+1` and `i+1 < n-1`),
and `sub2 = 𝛼`. Overlapping diagonals add, exactly as the `np.diag`
sums do. -/
def laplace.set_mat (alpha beta : ℚ) (xn yn : ℕ) : ℕ → ℕ → ℚ :=
  fun i i' =>
    let n := (xn - 1) * (yn - 1)
    (if i' = i then -2 * (alpha + beta) else 0)
    + (if i' = i + 1 then (if (xn - 1) ∣ (i + 1) ∧ i + 1 < n - 1 then 0 else beta) else 0)
    + (if i = i' + 1 then (if (xn - 1) ∣ (i' + 1) ∧ i' + 1 < n - 1 then 0 else beta) else 0)
    + (if i' = i + (xn - 1) then alpha else 0)
    + (if i = i' + (xn - 1) then alpha else 0)

/-- pde/laplace.py `_set_vec`: the boundary contributions accumulated on
a zero grid of shape `(xn-1, yn-1)` and flattened in column-major
(Fortran) order; entry `m` corresponds to interior cell
`(i, j) = (m % (xn-1), m / (xn-1))`, that is grid cell `(i+1, j+1)`. -/
def laplace.set_vec (alpha beta : ℚ) (xn yn : ℕ) (u : Grid) : ℕ → ℚ :=
  fun m =>
    let i := m % (xn - 1)
    let j := m / (xn - 1)
    0 - (if i = 0 then beta * u 0 (j + 1) else 0)
      - (if i = xn - 2 then beta * u xn (j + 1) else 0)
      - (if j = 0 then alpha * u (i + 1) 0 else 0)
      - (if j = yn - 2 then alpha * u (i + 1) yn else 0)

/-- pde/laplace.py `_implicit`: assemble, solve once, and write the flat
solution back into `u[1:-1, 1:-1]` in column-major order. -/
def laplace.implicit (lin : LinSolve) (xn yn : ℕ) (alpha beta : ℚ) (u : Grid) : Grid :=
  let x := lin (laplace.set_mat alpha beta xn yn) (laplace.set_vec alpha beta xn yn u)
  fun a b =>
    if 1 ≤ a ∧ a ≤ xn - 1 ∧ 1 ≤ b ∧ b ≤ yn - 1 then x ((a - 1) + (b - 1) * (xn - 1))
    else u a b

/-- pde/laplace.py `solve`: validate the method, initialise `u` from the
four boundary conditions, then run the one-shot implicit solve. -/
def laplace.solve (lin : LinSolve) (g : Grid) (xn : ℕ) (xf : ℚ) (yn : ℕ) (yf : ℚ)
    (bound_x0 bound_xf bound_y0 bound_yf : ℕ → ℚ) (method : String) :
    Except String Grid :=
  match check_method method ["c"] with
  | Except.error e => Except.error e
  | Except.ok _ =>
    let u := steady.set_u g xn yn bound_x0 bound_xf bound_y0 bound_yf
    let c := laplace.cal_constants xn xf yn yf
    Except.ok (laplace.implicit lin xn yn c.1 c.2 u)

/-! ## pde/core.py parameter materialisation (class `TimeDependent`) -/

/-- A parameter specification for the parabolic solver: a Python
function of two variables, an `int`/`float` scalar, or an array passed
through unchanged. -/
inductive Param where
  | func : (ℚ → ℚ → ℚ) → Param
  | scalar : ℚ → Param
  | arr : List (List ℚ) → Param

/-- Model of `np.meshgrid(a, b)`: a pair of arrays of shape `(len b, len a)`, the
first repeating `a` along rows, the second repeating `b` along columns. -/
def meshgrid (a b : List ℚ) : List (List ℚ) × List (List ℚ) :=
  (b.map (fun _ => a), b.map (fun bi => a.map (fun _ => bi)))

/-- pde/core.py `TimeDependent._mesh_int_grid`:
`np.meshgrid(y[:-1], x[1:-1])`. -/
def mesh_int_grid (y x : List ℚ) : List (List ℚ) × List (List ℚ) :=
  meshgrid y.dropLast ((x.drop 1).dropLast)

/-- One element of the loop body of pde/core.py `Base._set_parameters`:
a function is evaluated elementwise on `(x_m, y_m) = _mesh_int_grid(y, x)`,
a scalar is multiplied into `np.ones((len(x)-2, len(y)-1))`, and
anything else is left unchanged. -/
def resolve_param (x y : List ℚ) : Param → List (List ℚ)
  | Param.func f =>
    let m := mesh_int_grid y x
    List.zipWith (List.zipWith f) m.2 m.1
  | Param.scalar c => List.replicate (x.length - 2) (List.replicate (y.length - 1) c)
  | Param.arr a => a

/-- pde/core.py `Base._set_parameters`. -/
def set_parameters (ps : List Param) (x y : List ℚ) : List (List (List ℚ)) :=
  ps.map (resolve_param x y)


/-! ## Unfolding lemmas for the `solve` entry points -/

theorem wave.solve_e (lin : LinSolve) (g : Grid) (xn : ℕ) (xf : ℚ) (yn : ℕ) (yf : ℚ)
    (d0 i0 b0 bf : ℕ → ℚ) :
    wave.solve lin g xn xf yn yf d0 i0 b0 bf ("e")
      = Except.ok (wave.explicit xn yn ((wave.cal_constants xn xf yn yf).1)⁻¹
          (wave.set_first_row xn (wave.cal_constants xn xf yn yf).2.1
            (wave.cal_constants xn xf yn yf).2.2 d0
            (time.set_u g xn yn i0 b0 bf))) := rfl

theorem wave.solve_i (lin : LinSolve) (g : Grid) (xn : ℕ) (xf : ℚ) (yn : ℕ) (yf : ℚ)
    (d0 i0 b0 bf : ℕ → ℚ) :
    wave.solve lin g xn xf yn yf d0 i0 b0 bf ("i")
      = Except.ok (wave.implicit lin xn yn ((wave.cal_constants xn xf yn yf).1)⁻¹
          (wave.set_first_row xn (wave.cal_constants xn xf yn yf).2.1
            (wave.cal_constants xn xf yn yf).2.2 d0
            (time.set_u g xn yn i0 b0 bf))) := rfl

theorem parabolic.solve_ec (lin : LinSolve) (g : Grid) (xn : ℕ) (xf : ℚ) (yn : ℕ) (yf : ℚ)
    (p q r s : ℕ → ℕ → ℚ) (i0 b0 bf : ℕ → ℚ) :
    parabolic.solve lin g xn xf yn yf p q r s i0 b0 bf ("ec")
      = Except.ok (parabolic.explicit xn yn 0 (parabolic.cal_constants xn xf yn yf).1
          (parabolic.cal_constants xn xf yn yf).2.1 (parabolic.cal_constants xn xf yn yf).2.2
          p q r s (time.set_u g xn yn i0 b0 bf)) := rfl

theorem parabolic.solve_eu (lin : LinSolve) (g : Grid) (xn : ℕ) (xf : ℚ) (yn : ℕ) (yf : ℚ)
    (p q r s : ℕ → ℕ → ℚ) (i0 b0 bf : ℕ → ℚ) :
    parabolic.solve lin g xn xf yn yf p q r s i0 b0 bf ("eu")
      = Except.ok (parabolic.explicit xn yn 1 (parabolic.cal_constants xn xf yn yf).1
          (parabolic.cal_constants xn xf yn yf).2.1 (parabolic.cal_constants xn xf yn yf).2.2
          p q r s (time.set_u g xn yn i0 b0 bf)) := rfl

theorem parabolic.solve_ic (lin : LinSolve) (g : Grid) (xn : ℕ) (xf : ℚ) (yn : ℕ) (yf : ℚ)
    (p q r s : ℕ → ℕ → ℚ) (i0 b0 bf : ℕ → ℚ) :
    parabolic.solve lin g xn xf yn yf p q r s i0 b0 bf ("ic")
      = Except.ok (parabolic.implicit lin xn yn 0 (parabolic.cal_constants xn xf yn yf).1
          (parabolic.cal_constants xn xf yn yf).2.1 (parabolic.cal_constants xn xf yn yf).2.2
          p q r s (time.set_u g xn yn i0 b0 bf)) := rfl

theorem parabolic.solve_iu (lin : LinSolve) (g : Grid) (xn : ℕ) (xf : ℚ) (yn : ℕ) (yf : ℚ)
    (p q r s : ℕ → ℕ → ℚ) (i0 b0 bf : ℕ → ℚ) :
    parabolic.solve lin g xn xf yn yf p q r s i0 b0 bf ("iu")
      = Except.ok (parabolic.implicit lin xn yn 1 (parabolic.cal_constants xn xf yn yf).1
          (parabolic.cal_constants xn xf yn yf).2.1 (parabolic.cal_constants xn xf yn yf).2.2
          p q r s (time.set_u g xn yn i0 b0 bf)) := rfl

theorem laplace.solve_c (lin : LinSolve) (g : Grid) (xn : ℕ) (xf : ℚ) (yn : ℕ) (yf : ℚ)
    (bx0 bxf by0 byf : ℕ → ℚ) :
    laplace.solve lin g xn xf yn yf bx0 bxf by0 byf ("c")
      = Except.ok (laplace.implicit lin xn yn (laplace.cal_constants xn xf yn yf).1
          (laplace.cal_constants xn xf yn yf).2
          (steady.set_u g xn yn bx0 bxf by0 byf)) := rfl

/-! ## Step functions read only levels at or before their own -/

theorem waveExplicitStep_congr (alpha : ℚ) (xn : ℕ) :
    ∀ (u v : Grid) (j x : ℕ),
      (∀ x' y', y' ≤ j ∨ x' = 0 ∨ xn ≤ x' → u x' y' = v x' y') →
      wave.explicitStep alpha u j x = wave.explicitStep alpha v j x := by
  intro u v j x h
  unfold wave.explicitStep
  rw [h x j (Or.inl le_rfl), h x (j - 1) (Or.inl (Nat.sub_le j 1)),
    h (x + 1) j (Or.inl le_rfl), h (x - 1) j (Or.inl le_rfl)]

theorem waveImplicitStep_congr (lin : LinSolve) (alpha : ℚ) (xn : ℕ) :
    ∀ (u v : Grid) (j x : ℕ), 1 ≤ j →
      (∀ x' y', y' ≤ j ∨ x' = 0 ∨ xn ≤ x' → u x' y' = v x' y') →
      wave.implicitStep lin xn alpha u j x = wave.implicitStep lin xn alpha v j x := by
  intro u v j x hj h
  unfold wave.implicitStep
  have hw : wave.set_vec alpha xn (fun r c => u r (j - 1 + c))
      = wave.set_vec alpha xn (fun r c => v r (j - 1 + c)) := by
    funext i
    unfold wave.set_vec
    beta_reduce
    rw [h i (j - 1 + 0) (Or.inl (by omega)), h (i + 2) (j - 1 + 0) (Or.inl (by omega)),
      h (i + 1) (j - 1 + 0) (Or.inl (by omega)), h (i + 1) (j - 1 + 1) (Or.inl (by omega)),
      h 0 (j - 1 + 2) (Or.inr (Or.inl rfl)), h xn (j - 1 + 2) (Or.inr (Or.inr le_rfl))]
  rw [hw]

theorem paraExplicitStep_congr (th alpha beta k : ℚ) (p q r s : ℕ → ℕ → ℚ) (xn : ℕ) :
    ∀ (u v : Grid) (j x : ℕ),
      (∀ x' y', y' ≤ j ∨ x' = 0 ∨ xn ≤ x' → u x' y' = v x' y') →
      parabolic.explicitStep th alpha beta k p q r s u j x
        = parabolic.explicitStep th alpha beta k p q r s v j x := by
  intro u v j x h
  unfold parabolic.explicitStep
  rw [h (x - 1) j (Or.inl le_rfl), h (x + 1) j (Or.inl le_rfl), h x j (Or.inl le_rfl)]

theorem paraImplicitStep_congr (lin : LinSolve) (th alpha beta k : ℚ)
    (p q r s : ℕ → ℕ → ℚ) (xn : ℕ) :
    ∀ (u v : Grid) (j x : ℕ),
      (∀ x' y', y' ≤ j ∨ x' = 0 ∨ xn ≤ x' → u x' y' = v x' y') →
      parabolic.implicitStep lin xn th alpha beta k p q r s u j x
        = parabolic.implicitStep lin xn th alpha beta k p q r s v j x := by
  intro u v j x h
  unfold parabolic.implicitStep
  have hw : parabolic.set_vec th alpha beta k (fun i => p i j) (fun i => q i j)
        (fun i => s i j) xn (fun r' c => u r' (j + c))
      = parabolic.set_vec th alpha beta k (fun i => p i j) (fun i => q i j)
        (fun i => s i j) xn (fun r' c => v r' (j + c)) := by
    funext i
    unfold parabolic.set_vec
    beta_reduce
    rw [h (i + 1) (j + 0) (Or.inl (by omega)), h 0 (j + 1) (Or.inr (Or.inl rfl)),
      h xn (j + 1) (Or.inr (Or.inr le_rfl))]
  rw [hw]

/-! ## Claim C1 (wave stepping constant) -/

/-- The inverse-ratio constant `consts[0]**(-1)` that pde/wave.py `solve`
actually hands to `_explicit` and `_implicit`, rewritten as the square of
the step ratio `h/k`. -/
theorem wave.alpha_passed (xn : ℕ) (xf : ℚ) (yn : ℕ) (yf : ℚ) :
    ((wave.cal_constants xn xf yn yf).1)⁻¹ = ((xf / xn) / (yf / yn)) ^ 2 := by
  show ((yf / (yn : ℚ)) ^ 2 / ((xf / (xn : ℚ)) ^ 2))⁻¹ = _
  rw [inv_div, ← div_pow]

/-- The explicit-mode wave grid of the counterexample run:
`domain = (2, 1, 2, 2)` (so `h = 1/2`, `k = 1`), `d_init = 0`,
`init = x²`, both boundaries 0, with zeroed garbage. -/
def c1_grid : Grid :=
  wave.explicit 2 2 ((wave.cal_constants 2 1 2 2).1)⁻¹
    (wave.set_first_row 2 (wave.cal_constants 2 1 2 2).2.1 (wave.cal_constants 2 1 2 2).2.2
      (fun _ => 0)
      (time.set_u (fun _ _ => 0) 2 2 (fun x => (x : ℚ) ^ 2) (fun _ => 0) (fun _ => 0)))

/-- C1 counterexample: for the wave solver with method `e` on the domain
`(xn, xf, yn, yf) = (2, 1, 2, 2)` (steps `h = 1/2`, `k = 1`), the
explicit update of the only interior node at the time step `j = 1` does
NOT satisfy the claimed recurrence with `𝛼 = (k/h)² = 4`: the code
multiplies the stencil by `consts[0]**(-1) = (h/k)² = 1/4` instead. -/
theorem claim_C1_counterexample :
    wave.solve (fun _ v => v) (fun _ _ => 0) 2 1 2 2 (fun _ => 0) (fun x => (x : ℚ) ^ 2)
      (fun _ => 0) (fun _ => 0) ("e") = Except.ok c1_grid
    ∧ ¬(c1_grid 1 2 = 2 * c1_grid 1 1 - c1_grid 1 0
        + (((2 : ℚ) / 2) / ((1 : ℚ) / 2)) ^ 2 * (c1_grid 2 1 - 2 * c1_grid 1 1 + c1_grid 0 1)) := by
  refine ⟨rfl, ?_⟩
  simp [c1_grid, wave.explicit, colLoop, List.range', colStep, wave.explicitStep,
    wave.set_first_row, time.set_u, wave.cal_constants]
  norm_num

/-- C1 (amended): for the wave solver, each explicit time step computes
`u[x, j+1] = 2u[x,j] - u[x,j-1] + 𝛼'(u[x+1,j] - 2u[x,j] + u[x-1,j])` for
every interior space node `x` and every time level `j` from 1 to `yn-1`,
where the constant `𝛼'` is `(h/k)²` — the RECIPROCAL of `𝛼 = (k/h)²`
computed by `_cal_constants`, because `solve` passes `consts[0]**(-1)`
(`h = xf/xn`, `k = yf/yn`); the implicit mode solves, at each such step,
the constant tridiagonal system whose matrix uses the same `𝛼'` in its
main diagonal `-2(1+𝛼')`. -/
theorem claim_C1 (lin : LinSolve) (g : Grid) (xn : ℕ) (xf : ℚ) (yn : ℕ) (yf : ℚ)
    (d0 i0 b0 bf : ℕ → ℚ) (x j i : ℕ)
    (hx1 : 1 ≤ x) (hx2 : x ≤ xn - 1) (hj1 : 1 ≤ j) (hj2 : j ≤ yn - 1) (hi : i < xn - 1) :
    (∀ u, wave.solve lin g xn xf yn yf d0 i0 b0 bf ("e") = Except.ok u →
      u x (j + 1) = 2 * u x j - u x (j - 1)
        + ((xf / xn) / (yf / yn)) ^ 2 * (u (x + 1) j - 2 * u x j + u (x - 1) j))
    ∧ (∀ u, wave.solve lin g xn xf yn yf d0 i0 b0 bf ("i") = Except.ok u →
      u x (j + 1) = lin (wave.set_mat (xn - 1) (((xf / xn) / (yf / yn)) ^ 2))
        (wave.set_vec (((xf / xn) / (yf / yn)) ^ 2) xn (fun r c => u r (j - 1 + c)))
        (x - 1))
    ∧ wave.set_mat (xn - 1) (((xf / xn) / (yf / yn)) ^ 2) i i
        = -2 * (1 + ((xf / xn) / (yf / yn)) ^ 2) := by
  refine ⟨?_, ?_, ?_⟩
  · intro u hu
    rw [wave.solve_e] at hu
    injection hu with h
    subst h
    rw [← wave.alpha_passed xn xf yn yf]
    exact colLoop_rec xn (wave.explicitStep ((wave.cal_constants xn xf yn yf).1)⁻¹)
      (yn - 1) 1 _ j x
      (fun w v j' x' _ hag =>
        waveExplicitStep_congr ((wave.cal_constants xn xf yn yf).1)⁻¹ xn w v j' x' hag)
      hj1 (by omega) hx1 hx2
  · intro u hu
    rw [wave.solve_i] at hu
    injection hu with h
    subst h
    rw [← wave.alpha_passed xn xf yn yf]
    exact colLoop_rec xn (wave.implicitStep lin xn ((wave.cal_constants xn xf yn yf).1)⁻¹)
      (yn - 1) 1 _ j x
      (fun w v j' x' hj' hag =>
        waveImplicitStep_congr lin ((wave.cal_constants xn xf yn yf).1)⁻¹ xn w v j' x' hj' hag)
      hj1 (by omega) hx1 hx2
  · simp [wave.set_mat]

/-- The implicit-mode wave grid of the same concrete run, with the
identity-like stand-in `fun _ v => v` for `linalg.solve`. -/
def c1_gridI : Grid :=
  wave.implicit (fun _ v => v) 2 2 ((wave.cal_constants 2 1 2 2).1)⁻¹
    (wave.set_first_row 2 (wave.cal_constants 2 1 2 2).2.1 (wave.cal_constants 2 1 2 2).2.2
      (fun _ => 0)
      (time.set_u (fun _ _ => 0) 2 2 (fun x => (x : ℚ) ^ 2) (fun _ => 0) (fun _ => 0)))

/-- Witness for C1 (amended) at the counterexample run, interior node
`x = 1`, step `j = 1`, matrix row `i = 0`. -/
theorem claim_C1_witness :
    ((1 : ℕ) ≤ 1 ∧ (1 : ℕ) ≤ 2 - 1 ∧ (0 : ℕ) < 2 - 1)
    ∧ c1_grid 1 2 = 2 * c1_grid 1 1 - c1_grid 1 0
        + (((1 : ℚ) / ((2 : ℕ) : ℚ)) / (((2 : ℚ)) / ((2 : ℕ) : ℚ))) ^ 2
          * (c1_grid 2 1 - 2 * c1_grid 1 1 + c1_grid 0 1)
    ∧ c1_gridI 1 2 = (fun _ v => v : LinSolve)
        (wave.set_mat (2 - 1) ((((1 : ℚ) / ((2 : ℕ) : ℚ)) / (((2 : ℚ)) / ((2 : ℕ) : ℚ))) ^ 2))
        (wave.set_vec ((((1 : ℚ) / ((2 : ℕ) : ℚ)) / (((2 : ℚ)) / ((2 : ℕ) : ℚ))) ^ 2) 2
          (fun r c => c1_gridI r (1 - 1 + c))) (1 - 1)
    ∧ wave.set_mat (2 - 1) ((((1 : ℚ) / ((2 : ℕ) : ℚ)) / (((2 : ℚ)) / ((2 : ℕ) : ℚ))) ^ 2) 0 0
        = -2 * (1 + (((1 : ℚ) / ((2 : ℕ) : ℚ)) / (((2 : ℚ)) / ((2 : ℕ) : ℚ))) ^ 2) := by
  have h := claim_C1 (fun _ v => v) (fun _ _ => 0) 2 1 2 2 (fun _ => 0) (fun x => (x : ℚ) ^ 2)
    (fun _ => 0) (fun _ => 0) 1 1 0 (by norm_num) (by norm_num) (by norm_num) (by norm_num)
    (by norm_num)
  exact ⟨by norm_num, h.1 c1_grid rfl, h.2.1 c1_gridI rfl, h.2.2⟩

/-! ## Claim C6 (wave first-row bootstrap) -/

/-- C6: for the wave solver with either method, the first interior time
column holds `u[x,1] = u[x,0] + k·d_init(x) + (k²/(2h²))(u[x-1,0] -
2u[x,0] + u[x+1,0])` at every interior space node `x`, computed before
any stepping runs (and never overwritten by the stepping, which only
writes columns 2 and later). -/
theorem claim_C6 (lin : LinSolve) (g : Grid) (xn : ℕ) (xf : ℚ) (yn : ℕ) (yf : ℚ)
    (d0 i0 b0 bf : ℕ → ℚ) (x : ℕ) (m : String)
    (hx1 : 1 ≤ x) (hx2 : x ≤ xn - 1) (hm : m = "e" ∨ m = "i") :
    ∀ u, wave.solve lin g xn xf yn yf d0 i0 b0 bf m = Except.ok u →
      u x 1 = u x 0 + (yf / yn) * d0 x
        + (yf / yn) ^ 2 / (2 * (xf / xn) ^ 2) * (u (x - 1) 0 - 2 * u x 0 + u (x + 1) 0) := by
  have key : ∀ (f : Grid → ℕ → ℕ → ℚ) (su : Grid),
      colLoop xn f 1 (yn - 1) (wave.set_first_row xn (xf / xn) (yf / yn) d0 su) x 1
        = colLoop xn f 1 (yn - 1) (wave.set_first_row xn (xf / xn) (yf / yn) d0 su) x 0
          + (yf / yn) * d0 x
          + (yf / yn) ^ 2 / (2 * (xf / xn) ^ 2)
            * (colLoop xn f 1 (yn - 1) (wave.set_first_row xn (xf / xn) (yf / yn) d0 su) (x - 1) 0
              - 2 * colLoop xn f 1 (yn - 1) (wave.set_first_row xn (xf / xn) (yf / yn) d0 su) x 0
              + colLoop xn f 1 (yn - 1) (wave.set_first_row xn (xf / xn) (yf / yn) d0 su) (x + 1) 0) := by
    intro f su
    rw [colLoop_out xn f (yn - 1) 1 _ x 1 (by omega),
      colLoop_out xn f (yn - 1) 1 _ x 0 (by omega),
      colLoop_out xn f (yn - 1) 1 _ (x - 1) 0 (by omega),
      colLoop_out xn f (yn - 1) 1 _ (x + 1) 0 (by omega)]
    simp only [wave.set_first_row]
    rw [if_pos ⟨hx1, hx2, trivial⟩, if_neg (by omega : ¬(1 ≤ x ∧ x ≤ xn - 1 ∧ 0 = 1)),
      if_neg (by omega : ¬(1 ≤ x - 1 ∧ x - 1 ≤ xn - 1 ∧ 0 = 1)),
      if_neg (by omega : ¬(1 ≤ x + 1 ∧ x + 1 ≤ xn - 1 ∧ 0 = 1))]
    ring
  intro u hu
  rcases hm with hm | hm
  · subst hm
    rw [wave.solve_e] at hu
    injection hu with h
    subst h
    exact key (wave.explicitStep ((wave.cal_constants xn xf yn yf).1)⁻¹)
      (time.set_u g xn yn i0 b0 bf)
  · subst hm
    rw [wave.solve_i] at hu
    injection hu with h
    subst h
    exact key (wave.implicitStep lin xn ((wave.cal_constants xn xf yn yf).1)⁻¹)
      (time.set_u g xn yn i0 b0 bf)

/-- Witness for C6 at the concrete explicit-mode run behind `c1_grid`. -/
theorem claim_C6_witness :
    ((1 : ℕ) ≤ 1 ∧ (1 : ℕ) ≤ 2 - 1)
    ∧ c1_grid 1 1 = c1_grid 1 0 + (((2 : ℚ)) / ((2 : ℕ) : ℚ)) * 0
        + (((2 : ℚ)) / ((2 : ℕ) : ℚ)) ^ 2 / (2 * ((1 : ℚ) / ((2 : ℕ) : ℚ)) ^ 2)
          * (c1_grid (1 - 1) 0 - 2 * c1_grid 1 0 + c1_grid (1 + 1) 0) := by
  refine ⟨by norm_num, ?_⟩
  exact claim_C6 (fun _ v => v) (fun _ _ => 0) 2 1 2 2 (fun _ => 0) (fun x => (x : ℚ) ^ 2)
    (fun _ => 0) (fun _ => 0) 1 ("e") (by norm_num) (by norm_num) (Or.inl rfl) c1_grid rfl

/-! ## Claim C2 (parabolic explicit step) -/

/-- C2: for the parabolic solver with an explicit method, for every time
level `j` from 0 to `yn-1` and every interior node `x`, the new value is
`(𝛼p + β(𝛉|q| - q))·u[x-1,j] + (𝛼p + β(𝛉|q| + q))·u[x+1,j]
 + (1 + kr - 2(𝛼p + 𝛉β|q|))·u[x,j] + k·s`, with the coefficients taken
at level `j`, `𝛼 = k/h²`, `β = k/(2h)`, `h = xf/xn`, `k = yf/yn`, and
`𝛉 = 0` for method `ec`, `𝛉 = 1` for method `eu`. -/
theorem claim_C2 (lin : LinSolve) (g : Grid) (xn : ℕ) (xf : ℚ) (yn : ℕ) (yf : ℚ)
    (p q r s : ℕ → ℕ → ℚ) (i0 b0 bf : ℕ → ℚ) (x j : ℕ)
    (hx1 : 1 ≤ x) (hx2 : x ≤ xn - 1) (hj : j < yn) :
    (∀ u, parabolic.solve lin g xn xf yn yf p q r s i0 b0 bf ("ec") = Except.ok u →
      u x (j + 1) =
        ((yf / yn) / (xf / xn) ^ 2 * p (x - 1) j
            + (yf / yn) / (2 * (xf / xn)) * (0 * abs (q (x - 1) j) - q (x - 1) j)) * u (x - 1) j
        + ((yf / yn) / (xf / xn) ^ 2 * p (x - 1) j
            + (yf / yn) / (2 * (xf / xn)) * (0 * abs (q (x - 1) j) + q (x - 1) j)) * u (x + 1) j
        + (1 + (yf / yn) * r (x - 1) j
            - 2 * ((yf / yn) / (xf / xn) ^ 2 * p (x - 1) j
              + 0 * ((yf / yn) / (2 * (xf / xn))) * abs (q (x - 1) j))) * u x j
        + (yf / yn) * s (x - 1) j)
    ∧ (∀ u, parabolic.solve lin g xn xf yn yf p q r s i0 b0 bf ("eu") = Except.ok u →
      u x (j + 1) =
        ((yf / yn) / (xf / xn) ^ 2 * p (x - 1) j
            + (yf / yn) / (2 * (xf / xn)) * (1 * abs (q (x - 1) j) - q (x - 1) j)) * u (x - 1) j
        + ((yf / yn) / (xf / xn) ^ 2 * p (x - 1) j
            + (yf / yn) / (2 * (xf / xn)) * (1 * abs (q (x - 1) j) + q (x - 1) j)) * u (x + 1) j
        + (1 + (yf / yn) * r (x - 1) j
            - 2 * ((yf / yn) / (xf / xn) ^ 2 * p (x - 1) j
              + 1 * ((yf / yn) / (2 * (xf / xn))) * abs (q (x - 1) j))) * u x j
        + (yf / yn) * s (x - 1) j) := by
  constructor
  · intro u hu
    rw [parabolic.solve_ec] at hu
    injection hu with h
    subst h
    exact colLoop_rec xn
      (parabolic.explicitStep 0 (parabolic.cal_constants xn xf yn yf).1
        (parabolic.cal_constants xn xf yn yf).2.1 (parabolic.cal_constants xn xf yn yf).2.2
        p q r s) yn 0 _ j x
      (fun w v j' x' _ hag => paraExplicitStep_congr 0 _ _ _ p q r s xn w v j' x' hag)
      (Nat.zero_le j) (by omega) hx1 hx2
  · intro u hu
    rw [parabolic.solve_eu] at hu
    injection hu with h
    subst h
    exact colLoop_rec xn
      (parabolic.explicitStep 1 (parabolic.cal_constants xn xf yn yf).1
        (parabolic.cal_constants xn xf yn yf).2.1 (parabolic.cal_constants xn xf yn yf).2.2
        p q r s) yn 0 _ j x
      (fun w v j' x' _ hag => paraExplicitStep_congr 1 _ _ _ p q r s xn w v j' x' hag)
      (Nat.zero_le j) (by omega) hx1 hx2

/-- The explicit-central parabolic grid of a concrete run:
`domain = (2, 1, 1, 1)`, all four coefficients constant 1, `init = 1`,
both boundaries 0, zeroed garbage. -/
def c2_grid_ec : Grid :=
  parabolic.explicit 2 1 0 (parabolic.cal_constants 2 1 1 1).1
    (parabolic.cal_constants 2 1 1 1).2.1 (parabolic.cal_constants 2 1 1 1).2.2
    (fun _ _ => 1) (fun _ _ => 1) (fun _ _ => 1) (fun _ _ => 1)
    (time.set_u (fun _ _ => 0) 2 1 (fun _ => 1) (fun _ => 0) (fun _ => 0))

/-- Witness for C2 at the concrete run behind `c2_grid_ec`, interior
node `x = 1`, step `j = 0`, method `ec`. -/
theorem claim_C2_witness :
    ((1 : ℕ) ≤ 1 ∧ (1 : ℕ) ≤ 2 - 1 ∧ (0 : ℕ) < 1)
    ∧ c2_grid_ec 1 (0 + 1) =
        (((1 : ℚ) / ((1 : ℕ) : ℚ)) / ((1 : ℚ) / ((2 : ℕ) : ℚ)) ^ 2 * 1
            + ((1 : ℚ) / ((1 : ℕ) : ℚ)) / (2 * ((1 : ℚ) / ((2 : ℕ) : ℚ)))
              * (0 * abs (1 : ℚ) - 1)) * c2_grid_ec (1 - 1) 0
        + (((1 : ℚ) / ((1 : ℕ) : ℚ)) / ((1 : ℚ) / ((2 : ℕ) : ℚ)) ^ 2 * 1
            + ((1 : ℚ) / ((1 : ℕ) : ℚ)) / (2 * ((1 : ℚ) / ((2 : ℕ) : ℚ)))
              * (0 * abs (1 : ℚ) + 1)) * c2_grid_ec (1 + 1) 0
        + (1 + ((1 : ℚ) / ((1 : ℕ) : ℚ)) * 1
            - 2 * (((1 : ℚ) / ((1 : ℕ) : ℚ)) / ((1 : ℚ) / ((2 : ℕ) : ℚ)) ^ 2 * 1
              + 0 * (((1 : ℚ) / ((1 : ℕ) : ℚ)) / (2 * ((1 : ℚ) / ((2 : ℕ) : ℚ))))
                * abs (1 : ℚ))) * c2_grid_ec 1 0
        + ((1 : ℚ) / ((1 : ℕ) : ℚ)) * 1 := by
  refine ⟨by norm_num, ?_⟩
  exact (claim_C2 (fun _ v => v) (fun _ _ => 0) 2 1 1 1
    (fun _ _ => 1) (fun _ _ => 1) (fun _ _ => 1) (fun _ _ => 1)
    (fun _ => 1) (fun _ => 0) (fun _ => 0) 1 0
    (by norm_num) (by norm_num) (by norm_num)).1 c2_grid_ec
    (parabolic.solve_ec (fun _ v => v) (fun _ _ => 0) 2 1 1 1
      (fun _ _ => 1) (fun _ _ => 1) (fun _ _ => 1) (fun _ _ => 1)
      (fun _ => 1) (fun _ => 0) (fun _ => 0))

/-! ## Claim C3 (parabolic implicit step) -/

theorem parabolic.set_mat_diag (th alpha beta k : ℚ) (pc qc rc : ℕ → ℚ) (i : ℕ) :
    parabolic.set_mat th alpha beta k pc qc rc i i
      = -1 + k * rc i - 2 * (alpha * pc i + th * beta * abs (qc i)) := by
  unfold parabolic.set_mat
  rw [if_pos rfl, if_neg (by omega : ¬(i = i + 1)), if_neg (by omega : ¬(i = i + 1))]
  ring

theorem parabolic.set_mat_super (th alpha beta k : ℚ) (pc qc rc : ℕ → ℚ) (i : ℕ) :
    parabolic.set_mat th alpha beta k pc qc rc i (i + 1)
      = alpha * pc i + beta * (th * abs (qc i) + qc i) := by
  unfold parabolic.set_mat
  rw [if_neg (by omega : ¬(i + 1 = i)), if_pos rfl, if_neg (by omega : ¬(i = i + 1 + 1))]
  ring

theorem parabolic.set_mat_sub (th alpha beta k : ℚ) (pc qc rc : ℕ → ℚ) (i : ℕ) :
    parabolic.set_mat th alpha beta k pc qc rc (i + 1) i
      = alpha * pc (i + 1) + beta * (th * abs (qc (i + 1)) - qc (i + 1)) := by
  unfold parabolic.set_mat
  rw [if_neg (by omega : ¬(i = i + 1)), if_neg (by omega : ¬(i = i + 1 + 1)), if_pos rfl]
  ring

theorem parabolic.set_vec_apply (th alpha beta k : ℚ) (pc qc sc : ℕ → ℚ) (xn : ℕ)
    (u : Grid) (j i : ℕ) :
    parabolic.set_vec th alpha beta k pc qc sc xn (fun r' c => u r' (j + c)) i
      = - u (i + 1) j - k * sc i
        - (if i = 0 then (alpha * pc 0 + beta * (th * abs (qc 0) - qc 0)) * u 0 (j + 1) else 0)
        - (if i = xn - 2 then
            (alpha * pc (xn - 2) + beta * (th * abs (qc (xn - 2)) + qc (xn - 2))) * u xn (j + 1)
          else 0) := by
  unfold parabolic.set_vec
  simp only [Nat.add_zero]

/-- C3: for the parabolic solver with an implicit method, at each time
level `j` from 0 to `yn-1` the interior of column `j+1` is set to the
linear solver's answer on the tridiagonal matrix with main diagonal
`-1 + kr - 2(𝛼p + 𝛉β|q|)`, super-diagonal `𝛼p + β(𝛉|q|+q)`,
sub-diagonal `𝛼p + β(𝛉|q|-q)` — all coefficients at the current level
`j` — against the right-hand side `-u[·,j] - k·s[·,j]` with boundary
corrections at the first and last entries using the off-diagonal
coefficient expressions at the boundary-adjacent nodes times the known
boundary values at level `j+1`; `𝛉 = 0` for `ic`, `𝛉 = 1` for `iu`. -/
theorem claim_C3 (lin : LinSolve) (g : Grid) (xn : ℕ) (xf : ℚ) (yn : ℕ) (yf : ℚ)
    (p q r s : ℕ → ℕ → ℚ) (i0 b0 bf : ℕ → ℚ) (x j i : ℕ) (th : ℚ) (m : String)
    (hx1 : 1 ≤ x) (hx2 : x ≤ xn - 1) (hj : j < yn)
    (hm : (m = "ic" ∧ th = 0) ∨ (m = "iu" ∧ th = 1)) :
    ∀ u, parabolic.solve lin g xn xf yn yf p q r s i0 b0 bf m = Except.ok u →
      u x (j + 1) = lin
          (parabolic.set_mat th ((yf / yn) / (xf / xn) ^ 2) ((yf / yn) / (2 * (xf / xn)))
            (yf / yn) (fun a => p a j) (fun a => q a j) (fun a => r a j))
          (parabolic.set_vec th ((yf / yn) / (xf / xn) ^ 2) ((yf / yn) / (2 * (xf / xn)))
            (yf / yn) (fun a => p a j) (fun a => q a j) (fun a => s a j) xn
            (fun r' c => u r' (j + c)))
          (x - 1)
      ∧ parabolic.set_mat th ((yf / yn) / (xf / xn) ^ 2) ((yf / yn) / (2 * (xf / xn)))
          (yf / yn) (fun a => p a j) (fun a => q a j) (fun a => r a j) i i
        = -1 + (yf / yn) * r i j
          - 2 * ((yf / yn) / (xf / xn) ^ 2 * p i j
            + th * ((yf / yn) / (2 * (xf / xn))) * abs (q i j))
      ∧ parabolic.set_mat th ((yf / yn) / (xf / xn) ^ 2) ((yf / yn) / (2 * (xf / xn)))
          (yf / yn) (fun a => p a j) (fun a => q a j) (fun a => r a j) i (i + 1)
        = (yf / yn) / (xf / xn) ^ 2 * p i j
          + ((yf / yn) / (2 * (xf / xn))) * (th * abs (q i j) + q i j)
      ∧ parabolic.set_mat th ((yf / yn) / (xf / xn) ^ 2) ((yf / yn) / (2 * (xf / xn)))
          (yf / yn) (fun a => p a j) (fun a => q a j) (fun a => r a j) (i + 1) i
        = (yf / yn) / (xf / xn) ^ 2 * p (i + 1) j
          + ((yf / yn) / (2 * (xf / xn))) * (th * abs (q (i + 1) j) - q (i + 1) j)
      ∧ parabolic.set_vec th ((yf / yn) / (xf / xn) ^ 2) ((yf / yn) / (2 * (xf / xn)))
          (yf / yn) (fun a => p a j) (fun a => q a j) (fun a => s a j) xn
          (fun r' c => u r' (j + c)) i
        = - u (i + 1) j - (yf / yn) * s i j
          - (if i = 0 then
              ((yf / yn) / (xf / xn) ^ 2 * p 0 j
                + ((yf / yn) / (2 * (xf / xn))) * (th * abs (q 0 j) - q 0 j)) * u 0 (j + 1)
            else 0)
          - (if i = xn - 2 then
              ((yf / yn) / (xf / xn) ^ 2 * p (xn - 2) j
                + ((yf / yn) / (2 * (xf / xn))) * (th * abs (q (xn - 2) j) + q (xn - 2) j))
                * u xn (j + 1)
            else 0) := by
  intro u hu
  have hmain : u x (j + 1) = parabolic.implicitStep lin xn th
      ((yf / yn) / (xf / xn) ^ 2) ((yf / yn) / (2 * (xf / xn))) (yf / yn) p q r s u j x := by
    rcases hm with ⟨hm, hth⟩ | ⟨hm, hth⟩ <;> subst hm <;> subst hth
    · rw [parabolic.solve_ic] at hu
      injection hu with h
      subst h
      exact colLoop_rec xn
        (parabolic.implicitStep lin xn 0 (parabolic.cal_constants xn xf yn yf).1
          (parabolic.cal_constants xn xf yn yf).2.1 (parabolic.cal_constants xn xf yn yf).2.2
          p q r s) yn 0 _ j x
        (fun w v j' x' _ hag =>
          paraImplicitStep_congr lin 0 _ _ _ p q r s xn w v j' x' hag)
        (Nat.zero_le j) (by omega) hx1 hx2
    · rw [parabolic.solve_iu] at hu
      injection hu with h
      subst h
      exact colLoop_rec xn
        (parabolic.implicitStep lin xn 1 (parabolic.cal_constants xn xf yn yf).1
          (parabolic.cal_constants xn xf yn yf).2.1 (parabolic.cal_constants xn xf yn yf).2.2
          p q r s) yn 0 _ j x
        (fun w v j' x' _ hag =>
          paraImplicitStep_congr lin 1 _ _ _ p q r s xn w v j' x' hag)
        (Nat.zero_le j) (by omega) hx1 hx2
  exact ⟨hmain,
    parabolic.set_mat_diag th _ _ _ (fun a => p a j) (fun a => q a j) (fun a => r a j) i,
    parabolic.set_mat_super th _ _ _ (fun a => p a j) (fun a => q a j) (fun a => r a j) i,
    parabolic.set_mat_sub th _ _ _ (fun a => p a j) (fun a => q a j) (fun a => r a j) i,
    parabolic.set_vec_apply th _ _ _ (fun a => p a j) (fun a => q a j) (fun a => s a j) xn u j i⟩

/-- The implicit-central parabolic grid of the same concrete run, with
the stand-in `fun _ v => v` for `linalg.solve`. -/
def c3_grid_ic : Grid :=
  parabolic.implicit (fun _ v => v) 2 1 0 (parabolic.cal_constants 2 1 1 1).1
    (parabolic.cal_constants 2 1 1 1).2.1 (parabolic.cal_constants 2 1 1 1).2.2
    (fun _ _ => 1) (fun _ _ => 1) (fun _ _ => 1) (fun _ _ => 1)
    (time.set_u (fun _ _ => 0) 2 1 (fun _ => 1) (fun _ => 0) (fun _ => 0))

/-- Witness for C3 at the concrete run behind `c3_grid_ic`, interior
node `x = 1`, step `j = 0`, matrix row `i = 0`, method `ic`. -/
theorem claim_C3_witness :
    ((1 : ℕ) ≤ 1 ∧ (1 : ℕ) ≤ 2 - 1 ∧ (0 : ℕ) < 1)
    ∧ (c3_grid_ic 1 (0 + 1) = (fun _ v => v : LinSolve)
        (parabolic.set_mat 0 (((1 : ℚ) / ((1 : ℕ) : ℚ)) / ((1 : ℚ) / ((2 : ℕ) : ℚ)) ^ 2)
          (((1 : ℚ) / ((1 : ℕ) : ℚ)) / (2 * ((1 : ℚ) / ((2 : ℕ) : ℚ))))
          ((1 : ℚ) / ((1 : ℕ) : ℚ)) (fun _ => 1) (fun _ => 1) (fun _ => 1))
        (parabolic.set_vec 0 (((1 : ℚ) / ((1 : ℕ) : ℚ)) / ((1 : ℚ) / ((2 : ℕ) : ℚ)) ^ 2)
          (((1 : ℚ) / ((1 : ℕ) : ℚ)) / (2 * ((1 : ℚ) / ((2 : ℕ) : ℚ))))
          ((1 : ℚ) / ((1 : ℕ) : ℚ)) (fun _ => 1) (fun _ => 1) (fun _ => 1) 2
          (fun r' c => c3_grid_ic r' (0 + c)))
        (1 - 1)
      ∧ parabolic.set_mat 0 (((1 : ℚ) / ((1 : ℕ) : ℚ)) / ((1 : ℚ) / ((2 : ℕ) : ℚ)) ^ 2)
          (((1 : ℚ) / ((1 : ℕ) : ℚ)) / (2 * ((1 : ℚ) / ((2 : ℕ) : ℚ))))
          ((1 : ℚ) / ((1 : ℕ) : ℚ)) (fun _ => 1) (fun _ => 1) (fun _ => 1) 0 0
        = -1 + ((1 : ℚ) / ((1 : ℕ) : ℚ)) * 1
          - 2 * (((1 : ℚ) / ((1 : ℕ) : ℚ)) / ((1 : ℚ) / ((2 : ℕ) : ℚ)) ^ 2 * 1
            + 0 * (((1 : ℚ) / ((1 : ℕ) : ℚ)) / (2 * ((1 : ℚ) / ((2 : ℕ) : ℚ)))) * abs (1 : ℚ))
      ∧ parabolic.set_mat 0 (((1 : ℚ) / ((1 : ℕ) : ℚ)) / ((1 : ℚ) / ((2 : ℕ) : ℚ)) ^ 2)
          (((1 : ℚ) / ((1 : ℕ) : ℚ)) / (2 * ((1 : ℚ) / ((2 : ℕ) : ℚ))))
          ((1 : ℚ) / ((1 : ℕ) : ℚ)) (fun _ => 1) (fun _ => 1) (fun _ => 1) 0 (0 + 1)
        = ((1 : ℚ) / ((1 : ℕ) : ℚ)) / ((1 : ℚ) / ((2 : ℕ) : ℚ)) ^ 2 * 1
          + (((1 : ℚ) / ((1 : ℕ) : ℚ)) / (2 * ((1 : ℚ) / ((2 : ℕ) : ℚ)))) * (0 * abs (1 : ℚ) + 1)
      ∧ parabolic.set_mat 0 (((1 : ℚ) / ((1 : ℕ) : ℚ)) / ((1 : ℚ) / ((2 : ℕ) : ℚ)) ^ 2)
          (((1 : ℚ) / ((1 : ℕ) : ℚ)) / (2 * ((1 : ℚ) / ((2 : ℕ) : ℚ))))
          ((1 : ℚ) / ((1 : ℕ) : ℚ)) (fun _ => 1) (fun _ => 1) (fun _ => 1) (0 + 1) 0
        = ((1 : ℚ) / ((1 : ℕ) : ℚ)) / ((1 : ℚ) / ((2 : ℕ) : ℚ)) ^ 2 * 1
          + (((1 : ℚ) / ((1 : ℕ) : ℚ)) / (2 * ((1 : ℚ) / ((2 : ℕ) : ℚ)))) * (0 * abs (1 : ℚ) - 1)
      ∧ parabolic.set_vec 0 (((1 : ℚ) / ((1 : ℕ) : ℚ)) / ((1 : ℚ) / ((2 : ℕ) : ℚ)) ^ 2)
          (((1 : ℚ) / ((1 : ℕ) : ℚ)) / (2 * ((1 : ℚ) / ((2 : ℕ) : ℚ))))
          ((1 : ℚ) / ((1 : ℕ) : ℚ)) (fun _ => 1) (fun _ => 1) (fun _ => 1) 2
          (fun r' c => c3_grid_ic r' (0 + c)) 0
        = - c3_grid_ic (0 + 1) 0 - ((1 : ℚ) / ((1 : ℕ) : ℚ)) * 1
          - (if (0 : ℕ) = 0 then
              (((1 : ℚ) / ((1 : ℕ) : ℚ)) / ((1 : ℚ) / ((2 : ℕ) : ℚ)) ^ 2 * 1
                + (((1 : ℚ) / ((1 : ℕ) : ℚ)) / (2 * ((1 : ℚ) / ((2 : ℕ) : ℚ))))
                  * (0 * abs (1 : ℚ) - 1)) * c3_grid_ic 0 (0 + 1)
            else 0)
          - (if (0 : ℕ) = 2 - 2 then
              (((1 : ℚ) / ((1 : ℕ) : ℚ)) / ((1 : ℚ) / ((2 : ℕ) : ℚ)) ^ 2 * 1
                + (((1 : ℚ) / ((1 : ℕ) : ℚ)) / (2 * ((1 : ℚ) / ((2 : ℕ) : ℚ))))
                  * (0 * abs (1 : ℚ) + 1)) * c3_grid_ic 2 (0 + 1)
            else 0)) := by
  refine ⟨by norm_num, ?_⟩
  exact claim_C3 (fun _ v => v) (fun _ _ => 0) 2 1 1 1
    (fun _ _ => 1) (fun _ _ => 1) (fun _ _ => 1) (fun _ _ => 1)
    (fun _ => 1) (fun _ => 0) (fun _ => 0) 1 0 0 0 ("ic")
    (by norm_num) (by norm_num) (by norm_num) (Or.inl ⟨rfl, rfl⟩) c3_grid_ic
    (parabolic.solve_ic (fun _ v => v) (fun _ _ => 0) 2 1 1 1
      (fun _ _ => 1) (fun _ _ => 1) (fun _ _ => 1) (fun _ _ => 1)
      (fun _ => 1) (fun _ => 0) (fun _ => 0))

/-! ## Claim C5 (boundary and initial data are never overwritten) -/

theorem laplace.implicit_out (lin : LinSolve) (xn yn : ℕ) (alpha beta : ℚ) (u : Grid)
    (x y : ℕ) (h : ¬(1 ≤ x ∧ x ≤ xn - 1 ∧ 1 ≤ y ∧ y ≤ yn - 1)) :
    laplace.implicit lin xn yn alpha beta u x y = u x y := if_neg h

/-- C5: for every solver and any valid method, the returned grid agrees
with the initialised grid (`time.set_u` / `steady.set_u`) at every
boundary/initial position — rows 0 and `xn` everywhere, column 0 for the
time-marching solvers, and also column `yn` for Laplace: all stepping
and linear-solve updates write only interior entries. -/
theorem claim_C5 (lin : LinSolve) (g : Grid) (xn : ℕ) (xf : ℚ) (yn : ℕ) (yf : ℚ)
    (d0 i0 b0 bf bx0 bxf by0 byf : ℕ → ℚ) (p q r s : ℕ → ℕ → ℚ) (x y : ℕ) :
    ((x = 0 ∨ x = xn ∨ y = 0) → ∀ m u, (m = "e" ∨ m = "i") →
      wave.solve lin g xn xf yn yf d0 i0 b0 bf m = Except.ok u →
      u x y = time.set_u g xn yn i0 b0 bf x y)
    ∧ ((x = 0 ∨ x = xn ∨ y = 0) → ∀ m u,
      (m = "ec" ∨ m = "eu" ∨ m = "ic" ∨ m = "iu") →
      parabolic.solve lin g xn xf yn yf p q r s i0 b0 bf m = Except.ok u →
      u x y = time.set_u g xn yn i0 b0 bf x y)
    ∧ ((x = 0 ∨ x = xn ∨ y = 0 ∨ y = yn) → ∀ u,
      laplace.solve lin g xn xf yn yf bx0 bxf by0 byf ("c") = Except.ok u →
      u x y = steady.set_u g xn yn bx0 bxf by0 byf x y) := by
  refine ⟨?_, ?_, ?_⟩
  · intro hb m u hm hu
    rcases hm with hm | hm <;> subst hm
    · rw [wave.solve_e] at hu
      injection hu with h
      subst h
      unfold wave.explicit
      rw [colLoop_out xn _ (yn - 1) 1 _ x y (by omega)]
      simp only [wave.set_first_row]
      rw [if_neg (by omega)]
    · rw [wave.solve_i] at hu
      injection hu with h
      subst h
      unfold wave.implicit
      rw [colLoop_out xn _ (yn - 1) 1 _ x y (by omega)]
      simp only [wave.set_first_row]
      rw [if_neg (by omega)]
  · intro hb m u hm hu
    rcases hm with hm | hm | hm | hm <;> subst hm
    · rw [parabolic.solve_ec] at hu
      injection hu with h
      subst h
      unfold parabolic.explicit
      rw [colLoop_out xn _ yn 0 _ x y (by omega)]
    · rw [parabolic.solve_eu] at hu
      injection hu with h
      subst h
      unfold parabolic.explicit
      rw [colLoop_out xn _ yn 0 _ x y (by omega)]
    · rw [parabolic.solve_ic] at hu
      injection hu with h
      subst h
      unfold parabolic.implicit
      rw [colLoop_out xn _ yn 0 _ x y (by omega)]
    · rw [parabolic.solve_iu] at hu
      injection hu with h
      subst h
      unfold parabolic.implicit
      rw [colLoop_out xn _ yn 0 _ x y (by omega)]
  · intro hb u hu
    rw [laplace.solve_c] at hu
    injection hu with h
    subst h
    exact laplace.implicit_out lin xn yn _ _ _ x y (by omega)

/-- The parabolic and Laplace grids of the boundary-witness run on the
domain `(2, 1, 2, 2)`. -/
def c5_grid_p : Grid :=
  parabolic.explicit 2 2 0 (parabolic.cal_constants 2 1 2 2).1
    (parabolic.cal_constants 2 1 2 2).2.1 (parabolic.cal_constants 2 1 2 2).2.2
    (fun _ _ => 1) (fun _ _ => 1) (fun _ _ => 1) (fun _ _ => 1)
    (time.set_u (fun _ _ => 0) 2 2 (fun x => (x : ℚ) ^ 2) (fun _ => 0) (fun _ => 0))

def c5_grid_l : Grid :=
  laplace.implicit (fun _ v => v) 2 2 (laplace.cal_constants 2 1 2 2).1
    (laplace.cal_constants 2 1 2 2).2
    (steady.set_u (fun _ _ => 0) 2 2 (fun _ => 1) (fun _ => 2) (fun _ => 3) (fun _ => 4))

/-- Witness for C5 at the corner cell `(0, 0)` of concrete runs of all
three solvers. -/
theorem claim_C5_witness :
    ((0 : ℕ) = 0 ∨ (0 : ℕ) = 2 ∨ (0 : ℕ) = 0)
    ∧ c1_grid 0 0
      = time.set_u (fun _ _ => 0) 2 2 (fun x => (x : ℚ) ^ 2) (fun _ => 0) (fun _ => 0) 0 0
    ∧ c5_grid_p 0 0
      = time.set_u (fun _ _ => 0) 2 2 (fun x => (x : ℚ) ^ 2) (fun _ => 0) (fun _ => 0) 0 0
    ∧ c5_grid_l 0 0
      = steady.set_u (fun _ _ => 0) 2 2 (fun _ => 1) (fun _ => 2) (fun _ => 3) (fun _ => 4) 0 0 := by
  have h := claim_C5 (fun _ v => v) (fun _ _ => 0) 2 1 2 2 (fun _ => 0) (fun x => (x : ℚ) ^ 2)
    (fun _ => 0) (fun _ => 0) (fun _ => 1) (fun _ => 2) (fun _ => 3) (fun _ => 4)
    (fun _ _ => 1) (fun _ _ => 1) (fun _ _ => 1) (fun _ _ => 1) 0 0
  refine ⟨Or.inl rfl, ?_, ?_, ?_⟩
  · exact h.1 (Or.inl rfl) ("e") c1_grid (Or.inl rfl)
      (wave.solve_e (fun _ v => v) (fun _ _ => 0) 2 1 2 2 (fun _ => 0) (fun x => (x : ℚ) ^ 2)
        (fun _ => 0) (fun _ => 0))
  · exact h.2.1 (Or.inl rfl) ("ec") c5_grid_p (Or.inl rfl)
      (parabolic.solve_ec (fun _ v => v) (fun _ _ => 0) 2 1 2 2
        (fun _ _ => 1) (fun _ _ => 1) (fun _ _ => 1) (fun _ _ => 1)
        (fun x => (x : ℚ) ^ 2) (fun _ => 0) (fun _ => 0))
  · exact h.2.2 (Or.inl rfl) c5_grid_l
      (laplace.solve_c (fun _ v => v) (fun _ _ => 0) 2 1 2 2
        (fun _ => 1) (fun _ => 2) (fun _ => 3) (fun _ => 4))

/-! ## Claim C4 (Laplace system assembly: the missed wrap point) -/

/-- C4, evaluation at the failing input `domain = (2, 2, 3, 3)` (so
`𝛼 = β = 1`): the interior has one column of two cells, flat indices 0
and 1; position 0 of the immediate off-diagonal is a wrap point of the
column-major flattening (`(xn-1) ∣ 0+1`), so the claimed matrix carries
only the far-diagonal `𝛼 = 1` there, but the zeroing slice
`sub1[xn-2:-1:xn-1]` stops before the last entry and leaves `β`, making
the assembled entry `𝛼 + β = 2`. -/
theorem claim_C4_bug :
    (laplace.cal_constants 2 2 3 3).1 = 1
    ∧ (laplace.cal_constants 2 2 3 3).2 = 1
    ∧ (2 - 1) ∣ (0 + 1)
    ∧ laplace.set_mat (laplace.cal_constants 2 2 3 3).1 (laplace.cal_constants 2 2 3 3).2
        2 3 0 1 = 2 := by
  refine ⟨by norm_num [laplace.cal_constants], by norm_num [laplace.cal_constants],
    ⟨1, rfl⟩, ?_⟩
  norm_num [laplace.set_mat, laplace.cal_constants]

/-! ## Claim C8 (invalid method is rejected before any work) -/

/-- C8: each of the three solve entry points returns the fatal
`check_method` error for any method string outside its fixed set, and
the result is this error value alone — independent of every other
argument, so no grid, condition, constant or step is ever produced. -/
theorem claim_C8 (lin : LinSolve) (g : Grid) (xn : ℕ) (xf : ℚ) (yn : ℕ) (yf : ℚ)
    (d0 i0 b0 bf bx0 bxf by0 byf : ℕ → ℚ) (p q r s : ℕ → ℕ → ℚ) (m : String) :
    (¬(m = "c") → laplace.solve lin g xn xf yn yf bx0 bxf by0 byf m
      = Except.error ("Value " ++ m ++ " for argument method is not valid."))
    ∧ (¬(m = "ec" ∨ m = "eu" ∨ m = "ic" ∨ m = "iu") →
      parabolic.solve lin g xn xf yn yf p q r s i0 b0 bf m
        = Except.error ("Value " ++ m ++ " for argument method is not valid."))
    ∧ (¬(m = "e" ∨ m = "i") → wave.solve lin g xn xf yn yf d0 i0 b0 bf m
      = Except.error ("Value " ++ m ++ " for argument method is not valid.")) := by
  refine ⟨?_, ?_, ?_⟩
  · intro hm
    have hc : check_method m ["c"]
        = Except.error ("Value " ++ m ++ " for argument method is not valid.") := by
      unfold check_method
      rw [if_neg (by simpa using hm)]
    unfold laplace.solve
    rw [hc]
  · intro hm
    have hc : check_method m ["ec", "eu", "ic", "iu"]
        = Except.error ("Value " ++ m ++ " for argument method is not valid.") := by
      unfold check_method
      rw [if_neg (by simpa using hm)]
    unfold parabolic.solve
    rw [hc]
  · intro hm
    have hc : check_method m ["e", "i"]
        = Except.error ("Value " ++ m ++ " for argument method is not valid.") := by
      unfold check_method
      rw [if_neg (by simpa using hm)]
    unfold wave.solve
    rw [hc]

/-- Witness for C8 at the invalid method string `z`. -/
theorem claim_C8_witness :
    (¬("z" = "c") ∧ ¬("z" = "ec" ∨ "z" = "eu" ∨ "z" = "ic" ∨ "z" = "iu")
      ∧ ¬("z" = "e" ∨ "z" = "i"))
    ∧ laplace.solve (fun _ v => v) (fun _ _ => 0) 2 1 2 1 (fun _ => 0) (fun _ => 0)
        (fun _ => 0) (fun _ => 0) ("z")
      = Except.error ("Value " ++ "z" ++ " for argument method is not valid.")
    ∧ parabolic.solve (fun _ v => v) (fun _ _ => 0) 2 1 2 1 (fun _ _ => 0) (fun _ _ => 0)
        (fun _ _ => 0) (fun _ _ => 0) (fun _ => 0) (fun _ => 0) (fun _ => 0) ("z")
      = Except.error ("Value " ++ "z" ++ " for argument method is not valid.")
    ∧ wave.solve (fun _ v => v) (fun _ _ => 0) 2 1 2 1 (fun _ => 0) (fun _ => 0)
        (fun _ => 0) (fun _ => 0) ("z")
      = Except.error ("Value " ++ "z" ++ " for argument method is not valid.") := by
  have h := claim_C8 (fun _ v => v) (fun _ _ => 0) 2 1 2 1 (fun _ => 0) (fun _ => 0)
    (fun _ => 0) (fun _ => 0) (fun _ => 0) (fun _ => 0) (fun _ => 0) (fun _ => 0)
    (fun _ _ => 0) (fun _ _ => 0) (fun _ _ => 0) (fun _ _ => 0) ("z")
  exact ⟨⟨by decide, by decide, by decide⟩, h.1 (by decide), h.2.1 (by decide),
    h.2.2 (by decide)⟩

/-! ## Claim C9 (axis builder and degenerate partition counts) -/

/-- C9 counterexample: `set_axis` does NOT fail on a partition count
below 1 — with both counts 0 it succeeds and returns the single-sample
axes `[0]`. -/
theorem claim_C9_counterexample : set_axis 0 1 0 1 = Except.ok ([0], [0]) := rfl

/-- C9 (amended): the axis builder performs no validation of its own;
`np.linspace` raises only when the sample count `n+1` is negative, so
`set_axis` fails exactly when a partition count is below -1. Counts 0
and -1 are accepted (yielding a one-point, resp. empty, axis). -/
theorem claim_C9 (xn yn : ℤ) (xf yf : ℚ) :
    set_axis xn xf yn yf = Except.error ("Number of samples must be non-negative")
      ↔ (xn < -1 ∨ yn < -1) := by
  rcases lt_or_ge (xn + 1) 0 with h1 | h1
  · have hx : linspace xf (xn + 1) = Except.error ("Number of samples must be non-negative") := by
      unfold linspace
      rw [if_pos h1]
    simp only [set_axis, hx, bind, Except.bind]
    simp
    omega
  · have hx : linspace xf (xn + 1) = Except.ok ((List.range (xn + 1).toNat).map
        (fun i => if (xn + 1 : ℤ) = 1 then 0 else xf * i / ((xn + 1 : ℤ) - 1 : ℚ))) := by
      unfold linspace
      rw [if_neg (not_lt.mpr h1)]
    rcases lt_or_ge (yn + 1) 0 with h2 | h2
    · have hy : linspace yf (yn + 1) = Except.error ("Number of samples must be non-negative") := by
        unfold linspace
        rw [if_pos h2]
      simp only [set_axis, hx, hy, bind, Except.bind, pure, Except.pure]
      simp
      omega
    · have hy : linspace yf (yn + 1) = Except.ok ((List.range (yn + 1).toNat).map
          (fun i => if (yn + 1 : ℤ) = 1 then 0 else yf * i / ((yn + 1 : ℤ) - 1 : ℚ))) := by
        unfold linspace
        rw [if_neg (not_lt.mpr h2)]
      simp only [set_axis, hx, hy, bind, Except.bind, pure, Except.pure]
      simp
      omega

/-! ## Claim C10 (corner cells follow the last write) -/

/-- C10: conflicting condition values at corner cells resolve by
last-writer-wins: the time-dependent initialiser leaves `bound_x0[0]` at
`u[0,0]` and `bound_xf[0]` at `u[xn,0]` (both written after `init`); the
steady initialiser leaves `bound_y0` / `bound_yf` values at all four
corners (written after `bound_x0` / `bound_xf`). -/
theorem claim_C10 (g : Grid) (xn yn : ℕ) (i0 b0 bf bx0 bxf by0 byf : ℕ → ℚ)
    (hx : 1 ≤ xn) (hy : 1 ≤ yn) :
    time.set_u g xn yn i0 b0 bf 0 0 = b0 0
    ∧ time.set_u g xn yn i0 b0 bf xn 0 = bf 0
    ∧ steady.set_u g xn yn bx0 bxf by0 byf 0 0 = by0 0
    ∧ steady.set_u g xn yn bx0 bxf by0 byf xn 0 = by0 xn
    ∧ steady.set_u g xn yn bx0 bxf by0 byf 0 yn = byf 0
    ∧ steady.set_u g xn yn bx0 bxf by0 byf xn yn = byf xn := by
  have hx1 : xn ≠ 0 := by omega
  have hy1 : yn ≠ 0 := by omega
  have hx2 : ¬(0 = xn) := fun h => hx1 h.symm
  have hy2 : ¬(0 = yn) := fun h => hy1 h.symm
  simp [time.set_u, steady.set_u, hx1, hy1, hx2, hy2]

/-- Witness for C10 on a 2-by-2 grid with pairwise different constant
conditions, so every overlapping pair genuinely disagrees. -/
theorem claim_C10_witness :
    ((1 : ℕ) ≤ 1 ∧ (1 : ℕ) ≤ 1)
    ∧ time.set_u (fun _ _ => 0) 1 1 (fun _ => 5) (fun _ => 6) (fun _ => 7) 0 0 = 6
    ∧ time.set_u (fun _ _ => 0) 1 1 (fun _ => 5) (fun _ => 6) (fun _ => 7) 1 0 = 7
    ∧ steady.set_u (fun _ _ => 0) 1 1 (fun _ => 1) (fun _ => 2) (fun _ => 3) (fun _ => 4) 0 0 = 3
    ∧ steady.set_u (fun _ _ => 0) 1 1 (fun _ => 1) (fun _ => 2) (fun _ => 3) (fun _ => 4) 1 0 = 3
    ∧ steady.set_u (fun _ _ => 0) 1 1 (fun _ => 1) (fun _ => 2) (fun _ => 3) (fun _ => 4) 0 1 = 4
    ∧ steady.set_u (fun _ _ => 0) 1 1 (fun _ => 1) (fun _ => 2) (fun _ => 3) (fun _ => 4) 1 1 = 4 := by
  have h := claim_C10 (fun _ _ => 0) 1 1 (fun _ => 5) (fun _ => 6) (fun _ => 7)
    (fun _ => 1) (fun _ => 2) (fun _ => 3) (fun _ => 4) (by norm_num) (by norm_num)
  exact ⟨by norm_num, h.1, h.2.1, h.2.2.1, h.2.2.2.1, h.2.2.2.2.1, h.2.2.2.2.2⟩

/-! ## Claim C7 (parameter materialisation) -/

theorem list_getD_replicate {α : Type} (c d : α) :
    ∀ (n i : ℕ), i < n → (List.replicate n c).getD i d = c := by
  intro n
  induction n with
  | zero => intro i hi; omega
  | succ m ih =>
    intro i hi
    cases i with
    | zero => rfl
    | succ i' => exact ih i' (by omega)

theorem resolve_param_func_shape (x y : List ℚ) (f : ℚ → ℚ → ℚ) :
    (resolve_param x y (Param.func f)).length = x.length - 2 := by
  simp [resolve_param, mesh_int_grid, meshgrid]
  omega

theorem resolve_param_func_row (x y : List ℚ) (f : ℚ → ℚ → ℚ) (i : ℕ)
    (hi : i < x.length - 2) :
    (resolve_param x y (Param.func f)).getD i []
      = y.dropLast.map (fun v => f (((x.drop 1).dropLast).getD i 0) v) := by
  have hxi : i < ((x.drop 1).dropLast).length := by
    simp
    omega
  have hlen : i < (resolve_param x y (Param.func f)).length := by
    rw [resolve_param_func_shape]
    exact hi
  rw [List.getD_eq_getElem _ _ hlen]
  show (List.zipWith (List.zipWith f)
      (((x.drop 1).dropLast).map (fun bi => y.dropLast.map (fun _ => bi)))
      (((x.drop 1).dropLast).map (fun _ => y.dropLast)))[i] = _
  rw [List.getElem_zipWith]
  rw [List.getElem_map, List.getElem_map]
  rw [List.getD_eq_getElem _ _ hxi]
  apply List.ext_getElem
  · simp
  · intro j h1 h2
    rw [List.getElem_zipWith, List.getElem_map, List.getElem_map]

theorem resolve_param_scalar_shape (x y : List ℚ) (c : ℚ) :
    (resolve_param x y (Param.scalar c)).length = x.length - 2 := by
  simp [resolve_param]

/-- C7: the parameter materialiser resolves a scalar to the constant
matrix of shape `(len x - 2, len y - 1)`; a callable of two variables to
the matrix of the same shape whose `(i, j)` entry is `f x[1+i] y[j]`
(evaluated on the meshgrid of `x[1:-1]` and `y[:-1]`, first axis space,
second axis time); and it passes an already-2-D array through
unchanged. -/
theorem claim_C7 (x y : List ℚ) (c : ℚ) (f : ℚ → ℚ → ℚ) (a : List (List ℚ)) (i j : ℕ)
    (hi : i < x.length - 2) (hj : j < y.length - 1) :
    ((resolve_param x y (Param.scalar c)).length = x.length - 2
      ∧ ((resolve_param x y (Param.scalar c)).getD i []).length = y.length - 1
      ∧ ((resolve_param x y (Param.scalar c)).getD i []).getD j 0 = c)
    ∧ ((resolve_param x y (Param.func f)).length = x.length - 2
      ∧ ((resolve_param x y (Param.func f)).getD i []).length = y.length - 1
      ∧ ((resolve_param x y (Param.func f)).getD i []).getD j 0
          = f (x.getD (i + 1) 0) (y.getD j 0))
    ∧ resolve_param x y (Param.arr a) = a
    ∧ set_parameters [Param.scalar c, Param.func f, Param.arr a] x y
        = [resolve_param x y (Param.scalar c), resolve_param x y (Param.func f), a] := by
  refine ⟨⟨resolve_param_scalar_shape x y c, ?_, ?_⟩,
    ⟨resolve_param_func_shape x y f, ?_, ?_⟩, rfl, rfl⟩
  · show ((List.replicate (x.length - 2) (List.replicate (y.length - 1) c)).getD i []).length
      = y.length - 1
    rw [list_getD_replicate _ _ _ i hi, List.length_replicate]
  · show ((List.replicate (x.length - 2) (List.replicate (y.length - 1) c)).getD i []).getD j 0
      = c
    rw [list_getD_replicate _ _ _ i hi, list_getD_replicate _ _ _ j hj]
  · rw [resolve_param_func_row x y f i hi]
    simp
  · rw [resolve_param_func_row x y f i hi]
    have hj' : j < (y.dropLast.map
        (fun v => f (((x.drop 1).dropLast).getD i 0) v)).length := by
      simp
      omega
    rw [List.getD_eq_getElem _ _ hj', List.getElem_map]
    have hxi : i < ((x.drop 1).dropLast).length := by
      simp
      omega
    have e1 : ((x.drop 1).dropLast).getD i 0 = x.getD (i + 1) 0 := by
      rw [List.getD_eq_getElem _ _ hxi,
        List.getD_eq_getElem _ _ (by omega : i + 1 < x.length),
        List.getElem_dropLast, List.getElem_drop]
      congr 1
      omega
    have hyd : j < y.dropLast.length := by
      simp
      omega
    have e2 : y.dropLast[j] = y.getD j 0 := by
      rw [List.getD_eq_getElem _ _ (by omega : j < y.length), List.getElem_dropLast]
    simp only [e1, e2]

/-- Witness for C7 on the axes `x = [0, 1/2, 1, 3/2]`, `y = [0, 1, 2]`
(so the target shape is 2 by 2), entry `(0, 1)`. -/
theorem claim_C7_witness :
    ((0 : ℕ) < [0, 1/2, 1, (3 : ℚ)/2].length - 2 ∧ (1 : ℕ) < [0, 1, (2 : ℚ)].length - 1)
    ∧ ((resolve_param [0, 1/2, 1, (3 : ℚ)/2] [0, 1, (2 : ℚ)] (Param.scalar 7)).length
        = [0, 1/2, 1, (3 : ℚ)/2].length - 2
      ∧ ((resolve_param [0, 1/2, 1, (3 : ℚ)/2] [0, 1, (2 : ℚ)] (Param.scalar 7)).getD 0 []).length
        = [0, 1, (2 : ℚ)].length - 1
      ∧ ((resolve_param [0, 1/2, 1, (3 : ℚ)/2] [0, 1, (2 : ℚ)] (Param.scalar 7)).getD 0 []).getD 1 0
        = 7)
    ∧ ((resolve_param [0, 1/2, 1, (3 : ℚ)/2] [0, 1, (2 : ℚ)] (Param.func (fun a b => a + b))).length
        = [0, 1/2, 1, (3 : ℚ)/2].length - 2
      ∧ ((resolve_param [0, 1/2, 1, (3 : ℚ)/2] [0, 1, (2 : ℚ)]
          (Param.func (fun a b => a + b))).getD 0 []).length = [0, 1, (2 : ℚ)].length - 1
      ∧ ((resolve_param [0, 1/2, 1, (3 : ℚ)/2] [0, 1, (2 : ℚ)]
          (Param.func (fun a b => a + b))).getD 0 []).getD 1 0
        = (fun a b => a + b) ([0, 1/2, 1, (3 : ℚ)/2].getD (0 + 1) 0) ([0, 1, (2 : ℚ)].getD 1 0))
    ∧ resolve_param [0, 1/2, 1, (3 : ℚ)/2] [0, 1, (2 : ℚ)] (Param.arr [[9]]) = [[9]]
    ∧ set_parameters [Param.scalar 7, Param.func (fun a b => a + b), Param.arr [[9]]]
        [0, 1/2, 1, (3 : ℚ)/2] [0, 1, (2 : ℚ)]
      = [resolve_param [0, 1/2, 1, (3 : ℚ)/2] [0, 1, (2 : ℚ)] (Param.scalar 7),
         resolve_param [0, 1/2, 1, (3 : ℚ)/2] [0, 1, (2 : ℚ)] (Param.func (fun a b => a + b)),
         [[9]]] := by
  refine ⟨by norm_num, ?_⟩
  exact claim_C7 [0, 1/2, 1, (3 : ℚ)/2] [0, 1, (2 : ℚ)] 7 (fun a b => a + b) [[9]] 0 1
    (by norm_num) (by norm_num)
